import Mathlib

/-!
# Verification of the Harmony cross-shard router precompile and lockup engine

A shallow embedding of the repository sources:

* `core/vm/router/storage.go` — message-address derivation, slot layout,
  `StoreMessage` / `LoadMessage`;
* `core/vm/router/main.go` — `RequiredGas` and `RunWriteCapable`;
* `core/vm/router/parse.go` — the two parsed-call shapes;
* the router constants file — `RouterAddress`, `CrossShardNonceKey`;
* the delegation lockup engine, whose implementation is not in the
  source tree (only its tests are); those operations are modelled from
  the specification and checked against every test in the tree.

Machine bytes are `Nat` values below 256, byte strings are `List Nat`,
machine words carry explicit `% 2 ^ 64` style bounds.  Keccak-256 is
implemented in full so that every address computation is executable.
-/

set_option maxRecDepth 100000

namespace Harmony

/-- Byte strings: lists of byte values (each below 256). -/
abbrev Bytes := List Nat

/-- Big-endian encoding of `v` into `w` bytes (low bytes of `v` if it
overflows; all source call sites pass bounded values). Mirrors
`binary.BigEndian.PutUintNN` and `big.Int.FillBytes`. -/
def beBytes : Nat → Nat → Bytes
  | 0, _ => []
  | w + 1, v => beBytes w (v / 256) ++ [v % 256]

/-- Big-endian interpretation of a byte string as a `Nat`.  Mirrors
`big.Int.SetBytes` and `binary.BigEndian.UintNN`. -/
def fromBytes (bs : Bytes) : Nat := bs.foldl (fun acc b => 256 * acc + b) 0

/-- Truncate/zero-pad a byte string to exactly 32 bytes, as `common.Hash`
does when raw bytes are copied into it. -/
def pad32 (bs : Bytes) : Bytes := bs.take 32 ++ List.replicate (32 - bs.length) 0

/-! ## Keccak-256 (`golang.org/x/crypto/sha3.NewLegacyKeccak256`) -/

/-- 64-bit truncation of a `Nat`, the lane width of Keccak-f[1600]. -/
def u64 (x : Nat) : Nat := x % 18446744073709551616

/-- Rotate a 64-bit lane left by `n` bits. -/
def rotl64 (x n : Nat) : Nat := u64 ((x <<< n) ||| (x >>> (64 - n)))

/-- Keccak-f[1600] round constants (decimal renderings of the 24
standard 64-bit iota constants). -/
def keccakRC : List Nat :=
  [1, 32898,
   9223372036854808714, 9223372039002292224,
   32907, 2147483649,
   9223372039002292353, 9223372036854808585,
   138, 136,
   2147516425, 2147483658,
   2147516555, 9223372036854775947,
   9223372036854808713, 9223372036854808579,
   9223372036854808578, 9223372036854775936,
   32778, 9223372039002259466,
   9223372039002292353, 9223372036854808704,
   2147483649, 9223372039002292232]

/-- Keccak rotation offsets, a flat list indexed by lane `x + 5*y`,
generated along the rho/pi orbit: starting from lane `(1, 0)`, step `t`
assigns the triangular number `(t+1)(t+2)/2 mod 64` and moves to
`(y, (2x+3y) mod 5)`; lane `(0, 0)` keeps offset 0. -/
def keccakRot : List Nat :=
  ((List.range 24).foldl
    (fun (s : List Nat × Nat × Nat) t =>
      let tbl := s.1
      let x := s.2.1
      let y := s.2.2
      (tbl.set (x + 5 * y) ((t + 1) * (t + 2) / 2 % 64), y, (2 * x + 3 * y) % 5))
    (List.replicate 25 0, 1, 0)).1

/-- The theta step of a Keccak-f round. -/
def keccakTheta (st : List Nat) : List Nat :=
  let c := (List.range 5).map fun x =>
    st.getD x 0 ^^^ st.getD (x + 5) 0 ^^^ st.getD (x + 10) 0 ^^^
      st.getD (x + 15) 0 ^^^ st.getD (x + 20) 0
  let d := (List.range 5).map fun x =>
    c.getD ((x + 4) % 5) 0 ^^^ rotl64 (c.getD ((x + 1) % 5) 0) 1
  (List.range 25).map fun i => st.getD i 0 ^^^ d.getD (i % 5) 0

/-- The combined rho and pi steps: output lane `(x, y)` is the input lane
`((x + 3y) % 5, x)` rotated by its offset. -/
def keccakRhoPi (st : List Nat) : List Nat :=
  (List.range 25).map fun i =>
    let x := i % 5
    let y := i / 5
    let j := (x + 3 * y) % 5 + 5 * x
    rotl64 (st.getD j 0) (keccakRot.getD j 0)

/-- The chi step of a Keccak-f round. -/
def keccakChi (st : List Nat) : List Nat :=
  (List.range 25).map fun i =>
    let x := i % 5
    let y := i / 5
    st.getD i 0 ^^^
      ((st.getD ((x + 1) % 5 + 5 * y) 0 ^^^ 0xFFFFFFFFFFFFFFFF) &&&
        st.getD ((x + 2) % 5 + 5 * y) 0)

/-- One Keccak-f round: theta, rho/pi, chi, then iota with constant `rc`. -/
def keccakRound (st : List Nat) (rc : Nat) : List Nat :=
  let st := keccakChi (keccakRhoPi (keccakTheta st))
  st.set 0 (st.getD 0 0 ^^^ rc)

/-- The full Keccak-f[1600] permutation (24 rounds). -/
def keccakF (st : List Nat) : List Nat := keccakRC.foldl keccakRound st

/-- Interpret up to eight bytes as a little-endian 64-bit lane. -/
def bytesToLaneLE (bs : Bytes) : Nat := bs.foldr (fun b acc => b + 256 * acc) 0

/-- Emit a 64-bit lane as eight little-endian bytes. -/
def laneToBytesLE (x : Nat) : Bytes := (List.range 8).map fun k => (x >>> (8 * k)) % 256

/-- XOR a 136-byte rate block into the first 17 lanes of the state. -/
def keccakAbsorbBlock (st : List Nat) (block : Bytes) : List Nat :=
  (List.range 25).map fun i =>
    if i < 17 then st.getD i 0 ^^^ bytesToLaneLE ((block.drop (8 * i)).take 8)
    else st.getD i 0

/-- Legacy Keccak padding (pad10*1 with domain byte `0x01`) for a message
of length `len`, at the 136-byte rate of Keccak-256. -/
def keccakPad (len : Nat) : Bytes :=
  let p := 136 - len % 136
  if p = 1 then [0x81] else 0x01 :: (List.replicate (p - 2) 0 ++ [0x80])

/-- Keccak-256 of a byte string: pad, absorb block by block, squeeze the
first 32 bytes (four lanes, little-endian). -/
def keccak256 (msg : Bytes) : Bytes :=
  let padded := msg ++ keccakPad msg.length
  let nBlocks := padded.length / 136
  let st := (List.range nBlocks).foldl
    (fun st b => keccakF (keccakAbsorbBlock st ((padded.drop (136 * b)).take 136)))
    (List.replicate 25 0)
  (List.range 4).foldr (fun i acc => laneToBytesLE (st.getD i 0) ++ acc) []

/-- Sanity check of the Keccak-256 implementation against the reference
digest of the empty string. -/
theorem keccak256_empty :
    keccak256 [] =
      [0xc5, 0xd2, 0x46, 0x01, 0x86, 0xf7, 0x23, 0x3c, 0x92, 0x7e, 0x7d, 0xb2,
       0xdc, 0xc7, 0x03, 0xc0, 0xe5, 0x00, 0xb6, 0x53, 0xca, 0x82, 0x27, 0x3b,
       0x7b, 0xfa, 0xd8, 0x04, 0x5d, 0x85, 0xa4, 0x70] := by decide

/-! ## Router constants (`RouterAddress`, `CrossShardNonceKey`) -/

/-- The reserved router address, `common.BytesToAddress([]byte{248})`:
19 zero bytes followed by `0xF8`. -/
def RouterAddress : Bytes := List.replicate 19 0 ++ [248]

/-- The ASCII bytes of a string, for hashing string tags. -/
def strBytes (s : String) : Bytes := s.data.map Char.toNat

/-- The version tag hashed to form the cross-shard nonce storage key. -/
def crossShardNonceStr : String := "Harmony/CrossShardNonce/v1"

/-- Defines `CrossShardNonceKey = crypto.Keccak256Hash([]byte(crossShardNonceStr))`. -/
def CrossShardNonceKey : Bytes := keccak256 (strBytes crossShardNonceStr)

/-! ## The receipt model (`types.CXReceipt` as used by the router) -/

/-- The cross-shard receipt.  Addresses are 20-byte strings; `shardID`
and `toShardID` are below `2 ^ 32`, `nonce` and `gasLimit` below
`2 ^ 64`, and the three 256-bit quantities below `2 ^ 256` at every
source call site (Go fixes these widths by type). The Go field `From`
is spelled `fromAddr` because `from` is reserved in Lean. -/
structure CXReceipt where
  fromAddr : Bytes
  toAddr : Bytes
  shardID : Nat
  toShardID : Nat
  amount : Nat
  nonce : Nat
  payload : Bytes
  gasPrice : Nat
  gasBudget : Nat
  gasLeftoverTo : Bytes
  gasLimit : Nat
deriving DecidableEq

/-- An outgoing message: the receipt plus its derived message address
and payload hash (`router.OutgoingMessage`). -/
structure OutgoingMessage where
  cxReceipt : CXReceipt
  msgAddress : Bytes
  payloadHash : Bytes
deriving DecidableEq

/-- From `OutgoingMessage.CalculateAddressAndPayloadHash`: the payload hash is
Keccak-256 of the payload; the message address is the last 20 bytes
(bytes 12..32) of Keccak-256 over
`0xff ‖ from ‖ to ‖ be32(shardID) ‖ be32(toShardID) ‖ payloadHash ‖
be-32-byte(amount) ‖ be64(nonce)`. -/
def CalculateAddressAndPayloadHash (r : CXReceipt) : Bytes × Bytes :=
  let payloadHash := keccak256 r.payload
  let msgAddr := (keccak256
    ([0xff] ++ r.fromAddr ++ r.toAddr ++ beBytes 4 r.shardID ++ beBytes 4 r.toShardID
      ++ payloadHash ++ beBytes 32 r.amount ++ beBytes 8 r.nonce)).drop 12
  (msgAddr, payloadHash)

/-- From `router.NewOutgoingMessage`: pair a receipt with its derived address
and payload hash. -/
def NewOutgoingMessage (r : CXReceipt) : OutgoingMessage :=
  ⟨r, (CalculateAddressAndPayloadHash r).1, (CalculateAddressAndPayloadHash r).2⟩

/-- From `OutgoingMessage.wordAddr`: the storage key of the `n`-th header word.
A zeroed 32-byte `common.Hash` receives the (20-byte) message address,
then byte 20 is set to the marker `0x01` and byte 31 to the index `n`. -/
def wordAddr (msgAddress : Bytes) (n : Nat) : Bytes :=
  ((pad32 msgAddress).set 20 1).set 31 n

/-! ## The state database

`vm.StateDB` is modelled at the boundary the router uses: a total map
from (account, 32-byte key) to 32-byte words, zero by default, updated
by an explicit list of `SetState` writes applied in program order. -/

/-- The state database: account bytes and key bytes to stored word. -/
def DB := Bytes → Bytes → Bytes

/-- The all-zero database (every slot reads as the zero word). -/
def emptyDB : DB := fun _ _ => List.replicate 32 0

/-- One `db.SetState(account, key, value)` call. -/
structure Write where
  account : Bytes
  key : Bytes
  value : Bytes
deriving DecidableEq

/-- Reads as `GetState` does: it returns a `common.Hash`, hence exactly 32 bytes. -/
def getState (db : DB) (a k : Bytes) : Bytes := pad32 (db a k)

/-- Apply one write; `SetState` stores a `common.Hash` (32 bytes). -/
def applyWrite (db : DB) (w : Write) : DB :=
  fun a k => if a = w.account ∧ k = w.key then pad32 w.value else db a k

/-- Apply a list of writes in order (later writes win). -/
def applyWrites (db : DB) (ws : List Write) : DB := ws.foldl applyWrite db

/-! ## `StoreMessage`: the seven header words and the payload region -/

/-- Header word 0: `From` (20 bytes) ‖ big-endian `GasLimit` (8) ‖ 4 zero
bytes.  (`common.Address` is exactly 20 bytes wide.) -/
def headerWord0 (r : CXReceipt) : Bytes :=
  r.fromAddr ++ beBytes 8 r.gasLimit ++ List.replicate 4 0

/-- Header word 1: `To` (20) ‖ big-endian `Nonce` (8) ‖ big-endian
`ToShardID` (4). -/
def headerWord1 (r : CXReceipt) : Bytes :=
  r.toAddr ++ beBytes 8 r.nonce ++ beBytes 4 r.toShardID

/-- Header word 2: `GasLeftoverTo` (20) ‖ big-endian payload length (8)
‖ 4 zero bytes. -/
def headerWord2 (r : CXReceipt) : Bytes :=
  r.gasLeftoverTo ++ beBytes 8 r.payload.length ++ List.replicate 4 0

/-- Number of (started) 32-byte words covering `len` payload bytes. -/
def numWords (len : Nat) : Nat := (len + 31) / 32

/-- The key of payload word `i`: the payload hash read as a big-endian
256-bit integer, plus `i`, re-encoded (`offset.FillBytes(key[:])`). -/
def payloadSlotKey (phN i : Nat) : Bytes := beBytes 32 (phN + i)

/-- From `OutgoingMessage.storePayload`: one write per started 32-byte payload
word, the last word zero-padded, keyed consecutively from the payload
hash.  Empty payload stores nothing. -/
def storePayloadWrites (ph : Bytes) (payload : Bytes) : List Write :=
  (List.range (numWords payload.length)).map fun i =>
    ⟨RouterAddress, payloadSlotKey (fromBytes ph) i, pad32 ((payload.drop (32 * i)).take 32)⟩

/-- From `OutgoingMessage.StoreMessage`: its ordered list of `SetState`
writes: the seven header words at `wordAddr 0..6`, then the payload. -/
def StoreMessageWrites (om : OutgoingMessage) : List Write :=
  [⟨RouterAddress, wordAddr om.msgAddress 0, headerWord0 om.cxReceipt⟩,
   ⟨RouterAddress, wordAddr om.msgAddress 1, headerWord1 om.cxReceipt⟩,
   ⟨RouterAddress, wordAddr om.msgAddress 2, headerWord2 om.cxReceipt⟩,
   ⟨RouterAddress, wordAddr om.msgAddress 3, beBytes 32 om.cxReceipt.amount⟩,
   ⟨RouterAddress, wordAddr om.msgAddress 4, beBytes 32 om.cxReceipt.gasBudget⟩,
   ⟨RouterAddress, wordAddr om.msgAddress 5, beBytes 32 om.cxReceipt.gasPrice⟩,
   ⟨RouterAddress, wordAddr om.msgAddress 6, om.payloadHash⟩]
  ++ storePayloadWrites om.payloadHash om.cxReceipt.payload

/-- The effect of `StoreMessage` applied to a database. -/
def StoreMessage (om : OutgoingMessage) (db : DB) : DB :=
  applyWrites db (StoreMessageWrites om)

/-! ## `LoadMessage` -/

/-- From `OutgoingMessage.loadPayload`: read `len` bytes in 32-byte words keyed
consecutively from the payload hash, truncating the last word. -/
def loadPayloadBytes (db : DB) (ph : Bytes) (len : Nat) : Bytes :=
  ((List.range (numWords len)).flatMap fun i =>
    getState db RouterAddress (payloadSlotKey (fromBytes ph) i)).take len

/-- The payload hash stored in header slot 6. -/
def storedPayloadHash (msgAddr : Bytes) (db : DB) : Bytes :=
  getState db RouterAddress (wordAddr msgAddr 6)

/-- The receipt `LoadMessage` reconstructs from the seven header slots and
the payload region, before any verification.  `ShardID` is left at the
zero value of `types.CXReceipt{}` — no header slot stores it. -/
def loadedReceipt (msgAddr : Bytes) (db : DB) : CXReceipt :=
  let w0 := getState db RouterAddress (wordAddr msgAddr 0)
  let w1 := getState db RouterAddress (wordAddr msgAddr 1)
  let w2 := getState db RouterAddress (wordAddr msgAddr 2)
  let w3 := getState db RouterAddress (wordAddr msgAddr 3)
  let w4 := getState db RouterAddress (wordAddr msgAddr 4)
  let w5 := getState db RouterAddress (wordAddr msgAddr 5)
  { fromAddr := w0.take 20
    gasLimit := fromBytes ((w0.drop 20).take 8)
    toAddr := w1.take 20
    nonce := fromBytes ((w1.drop 20).take 8)
    toShardID := fromBytes ((w1.drop 28).take 4)
    gasLeftoverTo := w2.take 20
    shardID := 0
    amount := fromBytes w3
    gasBudget := fromBytes w4
    gasPrice := fromBytes w5
    payload :=
      loadPayloadBytes db (storedPayloadHash msgAddr db) (fromBytes ((w2.drop 20).take 8)) }

/-- One hex digit character code (lowercase). -/
def hexDigit (n : Nat) : Nat := if n < 10 then 48 + n else 87 + n

/-- Lowercase hex character codes of a byte string. -/
def hexChars (bs : Bytes) : List Nat :=
  bs.flatMap fun b => [hexDigit (b / 16), hexDigit (b % 16)]

/-- From `common.Hash.Hex`: `0x` plus lowercase hex. -/
def hashHex (bs : Bytes) : String :=
  "0x" ++ String.mk ((hexChars bs).map Char.ofNat)

/-- From `common.Address.Hex`: `0x` plus EIP-55 checksummed hex — a hex letter
is uppercased when the matching nibble of the Keccak-256 of the lowercase
hex string is at least 8. -/
def addressHex (bs : Bytes) : String :=
  let unchecksummed := hexChars bs
  let hash := keccak256 unchecksummed
  let result := (List.range unchecksummed.length).map fun i =>
    let c := unchecksummed.getD i 0
    let hashByte := hash.getD (i / 2) 0
    let nib := if i % 2 = 0 then hashByte / 16 else hashByte % 16
    if 57 < c ∧ 7 < nib then c - 32 else c
  "0x" ++ String.mk (result.map Char.ofNat)

/-- From `router.LoadMessage`: reconstruct the receipt, then recompute the
message address and the payload hash and verify both against the queried
address and the stored slot-6 value; return the message only if both
match, else an error carrying the computed and expected hex strings.
It performs no `SetState` call (it is a pure reader of `db`). -/
def LoadMessage (msgAddr : Bytes) (db : DB) : Except String OutgoingMessage :=
  let r := loadedReceipt msgAddr db
  let ph := storedPayloadHash msgAddr db
  let computed := CalculateAddressAndPayloadHash r
  if computed.1 ≠ msgAddr then
    .error ("unexpected address " ++ addressHex computed.1 ++ " (should be "
      ++ addressHex msgAddr ++ ")")
  else if computed.2 ≠ ph then
    .error ("unexpected hash " ++ hashHex computed.2 ++ " (should be "
      ++ hashHex ph ++ ")")
  else
    .ok ⟨r, msgAddr, ph⟩

/-! ## Parsed calls (`parse.go`) and the router executor (`main.go`) -/

/-- A parsed `send` call (`routerMessageSend`).  `gasLimit` was narrowed
to `uint64` by the ABI layer; the Go field `to` is spelled `toAddr`
because `to` is reserved in Lean. -/
structure RouterMessageSend where
  toAddr : Bytes
  toShard : Nat
  payload : Bytes
  gasPrice : Nat
  gasBudget : Nat
  gasLimit : Nat
  gasLeftoverTo : Bytes
deriving DecidableEq

/-- A parsed `retrySend` call (`routerMessageRetrySend`). -/
structure RouterMessageRetrySend where
  msgAddr : Bytes
  gasLimit : Nat
  gasPrice : Nat
deriving DecidableEq

/-- Outcome of `parseMethod`: one of the two typed calls, or a decode
failure (in which case `router.message` is the nil interface).  The ABI
decoder itself is an out-of-scope collaborator. -/
inductive ParseOutcome where
  | send (m : RouterMessageSend)
  | retrySend (m : RouterMessageRetrySend)
  | failure
deriving DecidableEq

/-- Outcome of `RequiredGas`: a gas charge, the out-of-gas error
propagated from `vm.IntrinsicGas` (its only error), or the Go `panic`
raised when re-encoding the parsed value fails. -/
inductive GasOutcome where
  | ok (gas : Nat)
  | outOfGas
  | panicked (msg : String)
deriving DecidableEq

/-- From `Router.RequiredGas`, over its two collaborators: `intrinsicGas`
models `vm.IntrinsicGas` (`none` = out of gas, its sole error) and
`rlpEncodedMessage` models `rlp.EncodeToBytes(router.message)` on the
parse-failure path (`none` = encoding error, which the source turns
into a panic).  A parsed `send` charges `SstoreSet` per payload byte, a
parsed `retrySend` charges three `SstoreSet` units. -/
def RequiredGas (sstoreSetGas : Nat) (intrinsicGas : Bytes → Option Nat)
    (rlpEncodedMessage : Option Bytes) (p : ParseOutcome) : GasOutcome :=
  match p with
  | .send m => .ok (sstoreSetGas * m.payload.length)
  | .retrySend _ => .ok (3 * sstoreSetGas)
  | .failure =>
    match rlpEncodedMessage with
    | none => .panicked "could not encode message to bytes"
    | some payload =>
      match intrinsicGas payload with
      | none => .outOfGas
      | some gas => .ok gas

/-- The observable outcome of `Router.RunWriteCapable`: the returned
bytes, the receipts emitted through `EmitCXReceipt` (a per-block bag,
modelled as the emission list), and the state database after the call. -/
structure RunOutcome where
  ret : Bytes
  receipts : List CXReceipt
  db : DB

/-- From `Router.RunWriteCapable`.  The send path builds a receipt from the
caller, call value, current shard and the cross-shard nonce of the caller
(`evm.StateDB.GetCrossShardNonce`, a collaborator passed as a function),
stores it and emits it, returning the message address.  The retry path
loads the stored message, overrides only `gasPrice` and `gasLimit` on
the in-memory receipt, re-emits, and returns the message address without
touching the database. -/
def RunWriteCapable (shardID : Nat) (getCrossShardNonce : Bytes → Nat)
    (caller : Bytes) (value : Nat) (parsed : ParseOutcome) (db : DB) :
    Except String RunOutcome :=
  match parsed with
  | .send m =>
    let cxReceipt : CXReceipt :=
      { fromAddr := caller
        toAddr := m.toAddr
        shardID := shardID
        toShardID := m.toShard
        amount := value
        nonce := getCrossShardNonce caller
        payload := m.payload
        gasPrice := m.gasPrice
        gasBudget := m.gasBudget
        gasLeftoverTo := m.gasLeftoverTo
        gasLimit := m.gasLimit }
    let om := NewOutgoingMessage cxReceipt
    .ok ⟨om.msgAddress, [cxReceipt], StoreMessage om db⟩
  | .retrySend m =>
    match LoadMessage m.msgAddr db with
    | .error e => .error e
    | .ok om =>
      .ok ⟨om.msgAddress,
        [{ om.cxReceipt with gasPrice := m.gasPrice, gasLimit := m.gasLimit }],
        db⟩
  | .failure => .error "cannot call Run before CalculateGas"

/-! ## The delegation lockup engine

The `Delegation` implementation is not under the source tree — only its
test file is.  The operations below are modelled from the specification
(data model in section 3, operations in section 4.G, scenarios in
section 8) and are checked against every test in the tree further down. -/

/-- Modelled from the spec: a pending undelegation entry, an
`(epoch, amount)` pair (`staking.Undelegation` is not in the tree). -/
structure Undelegation where
  amount : Nat
  epoch : Int
deriving DecidableEq

/-- Modelled from the spec: the per-(delegator, validator) record —
delegator address, staked principal, accumulated reward (opaque here),
and the ordered undelegation list (`staking.Delegation` is not in the
tree). -/
structure Delegation where
  delegatorAddress : Bytes
  amount : Nat
  reward : Nat
  undelegations : List Undelegation
deriving DecidableEq

/-- Modelled from the spec: a delegation is created with the given
delegator and amount and no undelegations. -/
def NewDelegation (delegator : Bytes) (amount : Nat) : Delegation :=
  ⟨delegator, amount, 0, []⟩

/-- Modelled from the spec: the section 6 rejection message of
`Undelegate` when a provided minimum-remaining floor is violated. -/
def minRemainingErr (minimum remaining : Nat) : String :=
  "Minimum: " ++ toString minimum ++ ", Remaining: " ++ toString remaining ++
    ": remaining delegation must be 0 or >= 100 ONE"

/-- Modelled from the spec: `Delegation.Undelegate` (body not in the
tree).  Validates `0 < amount ≤ d.amount`; with a provided minimum, a
non-zero remainder below the floor is rejected with the section 6
message; otherwise the principal is reduced and an `(epoch, amount)`
entry appended. -/
def Undelegate (d : Delegation) (epoch : Int) (amount : Nat)
    (minimumRemainingDelegation : Option Nat) : Except String Delegation :=
  if amount = 0 then .error "invalid amount, must be positive"
  else if d.amount < amount then .error "insufficient balance to undelegate"
  else
    let finalAmount := d.amount - amount
    match minimumRemainingDelegation with
    | some minimum =>
      if finalAmount < minimum ∧ finalAmount ≠ 0 then
        .error (minRemainingErr minimum finalAmount)
      else
        .ok { d with amount := finalAmount,
                     undelegations := d.undelegations ++ [⟨amount, epoch⟩] }
    | none =>
      .ok { d with amount := finalAmount,
                   undelegations := d.undelegations ++ [⟨amount, epoch⟩] }

/-- Modelled from the spec: `Delegation.TotalInUndelegation`, the sum of
all pending entry amounts. -/
def TotalInUndelegation (d : Delegation) : Nat :=
  (d.undelegations.map Undelegation.amount).sum

/-- Modelled from the spec: `Delegation.DeleteEntry` removes all entries
with the given epoch, preserving the order of the rest. -/
def DeleteEntry (d : Delegation) (epoch : Int) : Delegation :=
  { d with undelegations := d.undelegations.filter fun u => u.epoch ≠ epoch }

/-- Modelled from the spec: the release rule of
`RemoveUnlockedUndelegations` for one entry.  Rule 1 (full period)
always applies; with `noEarlyUnlock` false, rule 2 (zero lock period)
and rule 3 (post-committee: the validator left the committee, the entry
was requested after the exit, and a full lock period elapsed since the
exit — the section 8 reading, which its scenarios make authoritative)
also apply. -/
def releasable (curEpoch lastEpochInCommittee lockPeriod : Int)
    (noEarlyUnlock : Bool) (u : Undelegation) : Bool :=
  (lockPeriod ≤ curEpoch - u.epoch) ||
    (!noEarlyUnlock &&
      (lockPeriod = 0 ||
        (lastEpochInCommittee < curEpoch && lastEpochInCommittee < u.epoch &&
          lockPeriod ≤ curEpoch - lastEpochInCommittee)))

/-- Modelled from the spec: `Delegation.RemoveUnlockedUndelegations`
examines entries in order, drops every releasable one, and returns the
sum of the released amounts together with the updated record. -/
def RemoveUnlockedUndelegations (d : Delegation)
    (curEpoch lastEpochInCommittee lockPeriod : Int) (noEarlyUnlock : Bool) :
    Nat × Delegation :=
  let released := d.undelegations.filter
    (releasable curEpoch lastEpochInCommittee lockPeriod noEarlyUnlock)
  ((released.map Undelegation.amount).sum,
    { d with undelegations := d.undelegations.filter fun u =>
        !releasable curEpoch lastEpochInCommittee lockPeriod noEarlyUnlock u })

/-! ## Concrete sample data used by witnesses and counterexamples -/

def sampleFrom : Bytes :=
  [1, 2, 3, 4, 5, 6, 7, 8, 9, 10, 11, 12, 13, 14, 15, 16, 17, 18, 19, 20]

def sampleTo : Bytes :=
  [21, 22, 23, 24, 25, 26, 27, 28, 29, 30, 31, 32, 33, 34, 35, 36, 37, 38, 39, 40]

def sampleLeftover : Bytes :=
  [41, 42, 43, 44, 45, 46, 47, 48, 49, 50, 51, 52, 53, 54, 55, 56, 57, 58, 59, 60]

def sampleReceipt : CXReceipt :=
  { fromAddr := sampleFrom
    toAddr := sampleTo
    shardID := 0
    toShardID := 2
    amount := 1000
    nonce := 5
    payload := [17, 34, 51]
    gasPrice := 3
    gasBudget := 400
    gasLeftoverTo := sampleLeftover
    gasLimit := 21000 }

def sampleOM : OutgoingMessage := NewOutgoingMessage sampleReceipt

def sampleDB : DB := StoreMessage sampleOM emptyDB

/-! ## Helper lemmas -/

/-- Setting an index past the first list of an append sets into the
second list. -/
theorem list_set_append_right {α : Type} (l₁ l₂ : List α) (n : Nat) (a : α)
    (h : l₁.length ≤ n) :
    (l₁ ++ l₂).set n a = l₁ ++ l₂.set (n - l₁.length) a := by
  induction l₁ generalizing n with
  | nil => simp
  | cons x xs ih =>
    cases n with
    | zero => simp at h
    | succ m =>
      simp only [List.cons_append, List.set_cons_succ, List.length_cons,
        Nat.succ_sub_succ]
      rw [ih m (by simpa using h)]

/-- Setting the last position of a replicated list appends the new value
to one fewer copies. -/
theorem set_replicate_last {α : Type} (k : Nat) (v x : α) :
    (List.replicate (k + 1) v).set k x = List.replicate k v ++ [x] := by
  induction k with
  | zero => rfl
  | succ m ih =>
    rw [show List.replicate (m + 2) v = v :: List.replicate (m + 1) v from rfl,
      List.set_cons_succ, ih]
    rfl

/-- A slot not named by any write in a list reads unchanged after the
writes are applied. -/
theorem applyWrites_untouched (ws : List Write) (db : DB) (a k : Bytes)
    (h : ∀ w ∈ ws, ¬(a = w.account ∧ k = w.key)) :
    applyWrites db ws a k = db a k := by
  induction ws generalizing db with
  | nil => rfl
  | cons w ws ih =>
    show applyWrites (applyWrite db w) ws a k = db a k
    rw [ih (applyWrite db w) fun w2 hw2 => h w2 (List.mem_cons_of_mem _ hw2)]
    unfold applyWrite
    rw [if_neg (h w (List.mem_cons_self w ws))]

theorem keccak256_abc :
    keccak256 [97, 98, 99] =
      [0x4e, 0x03, 0x65, 0x7a, 0xea, 0x45, 0xa9, 0x4f, 0xc7, 0xd4, 0x7b, 0xa8,
       0x26, 0xc8, 0xd6, 0x67, 0xc0, 0xd1, 0xe6, 0xe3, 0x3a, 0x64, 0xa0, 0x36,
       0xec, 0x44, 0xf5, 0x8f, 0xa1, 0x2d, 0x6c, 0x45] := by decide

deriving instance DecidableEq for Except

theorem sample_roundtrip : LoadMessage sampleOM.msgAddress sampleDB = .ok sampleOM := by decide

/-! ## Claim C1: message-address derivation -/

/-- C1: for every receipt, the derived message address is the last 20
bytes (bytes 12..32) of the Keccak-256 digest of
`0xff ‖ from ‖ to ‖ be32(shardId) ‖ be32(toShardId) ‖ keccak(payload) ‖
be-32-byte(amount) ‖ be64(nonce)`, and it is unchanged under any
modification of `gasPrice`, `gasLimit`, `gasBudget` or `gasLeftoverTo`
alone. -/
theorem c1_message_address_derivation (r : CXReceipt) :
    (NewOutgoingMessage r).msgAddress =
      (keccak256 ([0xff] ++ r.fromAddr ++ r.toAddr ++ beBytes 4 r.shardID ++
        beBytes 4 r.toShardID ++ keccak256 r.payload ++ beBytes 32 r.amount ++
        beBytes 8 r.nonce)).drop 12 ∧
    (∀ gp, (NewOutgoingMessage { r with gasPrice := gp }).msgAddress =
      (NewOutgoingMessage r).msgAddress) ∧
    (∀ gl, (NewOutgoingMessage { r with gasLimit := gl }).msgAddress =
      (NewOutgoingMessage r).msgAddress) ∧
    (∀ gb, (NewOutgoingMessage { r with gasBudget := gb }).msgAddress =
      (NewOutgoingMessage r).msgAddress) ∧
    (∀ glt, (NewOutgoingMessage { r with gasLeftoverTo := glt }).msgAddress =
      (NewOutgoingMessage r).msgAddress) :=
  ⟨rfl, fun _ => rfl, fun _ => rfl, fun _ => rfl, fun _ => rfl⟩

/-! ## Claim C3: the header slot key shape -/

/-- The header-key shape the claim describes literally: the 20-byte
message address, a marker byte, ELEVEN zero bytes, and the index byte
(which would be 33 bytes, not 32). -/
def claimedHeaderKey (msgAddr : Bytes) (n : Nat) : Bytes :=
  msgAddr ++ [1] ++ List.replicate 11 0 ++ [n]

/-- C3 counterexample: at a concrete 20-byte message address and field
index 0, the key the code computes differs from the claimed
`addr ‖ 0x01 ‖ 0x00×11 ‖ n` shape (the latter is 33 bytes long). -/
theorem c3_counterexample :
    wordAddr sampleFrom 0 ≠ claimedHeaderKey sampleFrom 0 ∧
    (wordAddr sampleFrom 0).length = 32 ∧
    (claimedHeaderKey sampleFrom 0).length = 33 := by decide

/-- C3 as amended: for a 20-byte message address the header slot key is
the address, the marker byte `0x01`, TEN zero bytes, and the single-byte
field index. -/
theorem c3_amended (a : Bytes) (n : Nat) (h : a.length = 20) :
    wordAddr a n = a ++ [1] ++ List.replicate 10 0 ++ [n] := by
  unfold wordAddr pad32
  rw [List.take_of_length_le (by omega), h]
  rw [list_set_append_right a _ 20 1 (by omega), h, Nat.sub_self]
  rw [show (List.replicate 12 (0 : Nat)).set 0 1 = 1 :: List.replicate 11 0 from rfl]
  rw [list_set_append_right a _ 31 n (by omega), h]
  rw [show (31 : Nat) - 20 = 11 from rfl, List.set_cons_succ,
    set_replicate_last 10 0 n]
  simp

/-- C3 amended witness at a concrete address and index. -/
theorem c3_amended_witness :
    wordAddr sampleFrom 3 = sampleFrom ++ [1] ++ List.replicate 10 0 ++ [3] :=
  c3_amended sampleFrom 3 (by decide)

/-! ## Claim C5: the gas model -/

/-- C5: a parsed `send` charges `SstoreSet` times the payload length, a
parsed `retrySend` charges exactly three `SstoreSet` units, and on parse
failure (here with the rlp re-encoding of the parsed value available)
the charge is the collaborator intrinsic data cost of the re-encoded
bytes, whose only failure is out-of-gas — in particular the parse-failure
path never reaches the panic branch. -/
theorem c5_required_gas (sstoreSetGas : Nat) (intrinsicGas : Bytes → Option Nat)
    (enc : Bytes) (rlpEncodedMessage : Option Bytes) :
    (∀ m, RequiredGas sstoreSetGas intrinsicGas rlpEncodedMessage (.send m) =
      .ok (sstoreSetGas * m.payload.length)) ∧
    (∀ m, RequiredGas sstoreSetGas intrinsicGas rlpEncodedMessage (.retrySend m) =
      .ok (3 * sstoreSetGas)) ∧
    (RequiredGas sstoreSetGas intrinsicGas (some enc) .failure =
      match intrinsicGas enc with
      | none => .outOfGas
      | some gas => .ok gas) ∧
    (∀ msg, RequiredGas sstoreSetGas intrinsicGas (some enc) .failure ≠
      .panicked msg) := by
  refine ⟨fun _ => rfl, fun _ => rfl, rfl, fun msg => ?_⟩
  cases h : intrinsicGas enc <;> simp [RequiredGas, h]

/-- C5 witness at concrete collaborators and parsed values. -/
theorem c5_required_gas_witness :
    RequiredGas 20000 (fun bs => some (16 * bs.length)) (some [1, 2, 3])
        (.send ⟨sampleTo, 2, [9, 9], 1, 2, 3, sampleLeftover⟩) = .ok 40000 ∧
    RequiredGas 20000 (fun bs => some (16 * bs.length)) (some [1, 2, 3])
        (.retrySend ⟨sampleFrom, 1, 2⟩) = .ok 60000 ∧
    RequiredGas 20000 (fun bs => some (16 * bs.length)) (some [1, 2, 3])
        .failure = .ok 48 ∧
    RequiredGas 20000 (fun _ => none) (some [1, 2, 3]) .failure ≠
      .panicked "could not encode message to bytes" :=
  ⟨(c5_required_gas 20000 (fun bs => some (16 * bs.length)) [1, 2, 3]
      (some [1, 2, 3])).1 ⟨sampleTo, 2, [9, 9], 1, 2, 3, sampleLeftover⟩,
   (c5_required_gas 20000 (fun bs => some (16 * bs.length)) [1, 2, 3]
      (some [1, 2, 3])).2.1 ⟨sampleFrom, 1, 2⟩,
   (c5_required_gas 20000 (fun bs => some (16 * bs.length)) [1, 2, 3]
      (some [1, 2, 3])).2.2.1,
   (c5_required_gas 20000 (fun _ => none) [1, 2, 3]
      (some [1, 2, 3])).2.2.2 "could not encode message to bytes"⟩

/-! ## Claim C10: retrySend ignores caller and call value -/

/-- C10: two executions of the retrySend path that differ only in the
caller address and the call value produce identical outcomes (returned
bytes, emitted receipt, state) — the retry path performs no
authorization check and never reads the caller or the value. -/
theorem c10_retry_ignores_caller_value (shardID : Nat) (getN : Bytes → Nat)
    (callerA callerB : Bytes) (valueA valueB : Nat)
    (m : RouterMessageRetrySend) (db : DB) :
    RunWriteCapable shardID getN callerA valueA (.retrySend m) db =
      RunWriteCapable shardID getN callerB valueB (.retrySend m) db := rfl

/-! ## Replication of the delegation test file

The lockup operations above are modelled from the spec (their bodies are
not in the tree); the theorems below replay every test of the delegation
test file against the model, threading the shared record through the
test order exactly as the file does. -/

/-- Replays `TestUndelegate`: two undelegations append entries in order and
reduce the principal. -/
theorem test_undelegate_replicated :
    Undelegate (NewDelegation sampleFrom 100000) 10 1000 none =
      .ok ⟨sampleFrom, 99000, 0, [⟨1000, 10⟩]⟩ ∧
    Undelegate ⟨sampleFrom, 99000, 0, [⟨1000, 10⟩]⟩ 12 2000 none =
      .ok ⟨sampleFrom, 97000, 0, [⟨1000, 10⟩, ⟨2000, 12⟩]⟩ := by decide

/-- Replays `TestTotalInUndelegation`: the pending total after the two entries. -/
theorem test_total_in_undelegation_replicated :
    TotalInUndelegation ⟨sampleFrom, 97000, 0, [⟨1000, 10⟩, ⟨2000, 12⟩]⟩ = 3000 := by
  decide

/-- Replays `TestDeleteEntry`: add a third entry, delete epoch 12, order kept. -/
theorem test_delete_entry_replicated :
    Undelegate ⟨sampleFrom, 97000, 0, [⟨1000, 10⟩, ⟨2000, 12⟩]⟩ 15 3000 none =
      .ok ⟨sampleFrom, 94000, 0, [⟨1000, 10⟩, ⟨2000, 12⟩, ⟨3000, 15⟩]⟩ ∧
    DeleteEntry ⟨sampleFrom, 94000, 0, [⟨1000, 10⟩, ⟨2000, 12⟩, ⟨3000, 15⟩]⟩ 12 =
      ⟨sampleFrom, 94000, 0, [⟨1000, 10⟩, ⟨3000, 15⟩]⟩ := by decide

/-- Replays `TestUnlockedLastEpochInCommittee`: with entries at epochs 10, 15, 21
and `(curEpoch, lastEpochInCommittee, lockPeriod) = (24, 17, 7)` all
three release for a total of 8000. -/
theorem test_unlocked_last_epoch_replicated :
    Undelegate ⟨sampleFrom, 94000, 0, [⟨1000, 10⟩, ⟨3000, 15⟩]⟩ 21 4000 none =
      .ok ⟨sampleFrom, 90000, 0, [⟨1000, 10⟩, ⟨3000, 15⟩, ⟨4000, 21⟩]⟩ ∧
    RemoveUnlockedUndelegations
        ⟨sampleFrom, 90000, 0, [⟨1000, 10⟩, ⟨3000, 15⟩, ⟨4000, 21⟩]⟩ 24 17 7 false =
      (8000, ⟨sampleFrom, 90000, 0, []⟩) := by decide

/-- Replays `TestUnlockedFullPeriod`: a lone epoch-27 entry at
`(34, 34, 7)` releases by the full-period rule. -/
theorem test_unlocked_full_period_replicated :
    RemoveUnlockedUndelegations ⟨sampleFrom, 86000, 0, [⟨4000, 27⟩]⟩ 34 34 7 false =
      (4000, ⟨sampleFrom, 86000, 0, []⟩) := by decide

/-- Replays `TestQuickUnlock`: a zero lock period releases immediately. -/
theorem test_quick_unlock_replicated :
    RemoveUnlockedUndelegations ⟨sampleFrom, 82000, 0, [⟨4000, 44⟩]⟩ 44 44 0 false =
      (4000, ⟨sampleFrom, 82000, 0, []⟩) := by decide

/-- Replays `TestUnlockedFullPeriodFail`: an epoch-28 entry at `(34, 34, 7)` is
premature and stays. -/
theorem test_unlocked_full_period_fail_replicated :
    RemoveUnlockedUndelegations ⟨sampleFrom, 96000, 0, [⟨4000, 28⟩]⟩ 34 34 7 false =
      (0, ⟨sampleFrom, 96000, 0, [⟨4000, 28⟩]⟩) := by decide

/-- Replays `TestUnlockedPremature`: an epoch-42 entry at `(44, 44, 7)` stays. -/
theorem test_unlocked_premature_replicated :
    RemoveUnlockedUndelegations ⟨sampleFrom, 78000, 0, [⟨4000, 42⟩]⟩ 44 44 7 false =
      (0, ⟨sampleFrom, 78000, 0, [⟨4000, 42⟩]⟩) := by decide

/-- Replays `TestNoEarlyUnlock`: with `noEarlyUnlock` the epoch-21 entry at
`(24, 17, 7)` stays. -/
theorem test_no_early_unlock_replicated :
    RemoveUnlockedUndelegations ⟨sampleFrom, 74000, 0, [⟨4000, 21⟩]⟩ 24 17 7 true =
      (0, ⟨sampleFrom, 74000, 0, [⟨4000, 21⟩]⟩) := by decide

/-- Replays `TestMinRemainingDelegation`: the literal rejection string, then a
success leaving exactly the floor, then a success leaving zero. -/
theorem test_min_remaining_replicated :
    Undelegate (NewDelegation sampleFrom 100000) 10 50001 (some 50000) =
      .error "Minimum: 50000, Remaining: 49999: remaining delegation must be 0 or >= 100 ONE" ∧
    Undelegate (NewDelegation sampleFrom 100000) 11 50000 (some 50000) =
      .ok ⟨sampleFrom, 50000, 0, [⟨50000, 11⟩]⟩ ∧
    Undelegate ⟨sampleFrom, 50000, 0, [⟨50000, 11⟩]⟩ 12 50000 (some 50000) =
      .ok ⟨sampleFrom, 0, 0, [⟨50000, 11⟩, ⟨50000, 12⟩]⟩ := by decide

/-! ## Claim C7: the post-committee unlock rule -/

/-- C7 counterexample (the exact `TestUnlockedLastEpochInCommitteeFail`
scenario): the epoch-21 entry satisfies `curEpoch > lastEpochInCommittee`
and `entry.epoch > lastEpochInCommittee` at `(24, 18, 7, false)`, yet it
is NOT released — nothing is returned and the entry stays — because rule
3 additionally requires a full lock period since the committee exit. -/
theorem c7_counterexample :
    (18 : Int) < 24 ∧ (18 : Int) < 21 ∧
    RemoveUnlockedUndelegations ⟨sampleFrom, 96000, 0, [⟨4000, 21⟩]⟩ 24 18 7 false =
      (0, ⟨sampleFrom, 96000, 0, [⟨4000, 21⟩]⟩) := by decide

/-- C7 as amended: with `noEarlyUnlock = false`, every entry with
`curEpoch > lastEpochInCommittee`, `entry.epoch > lastEpochInCommittee`
AND `curEpoch − lastEpochInCommittee ≥ lockPeriod` is releasable and is
removed from the list, and the returned total is the sum of the amounts
of the releasable entries. -/
theorem c7_amended (d : Delegation) (curEpoch lastEpochInCommittee lockPeriod : Int)
    (u : Undelegation) (hu : u ∈ d.undelegations)
    (h1 : lastEpochInCommittee < curEpoch) (h2 : lastEpochInCommittee < u.epoch)
    (h3 : lockPeriod ≤ curEpoch - lastEpochInCommittee) :
    releasable curEpoch lastEpochInCommittee lockPeriod false u = true ∧
    u ∉ (RemoveUnlockedUndelegations d curEpoch lastEpochInCommittee lockPeriod
      false).2.undelegations ∧
    (RemoveUnlockedUndelegations d curEpoch lastEpochInCommittee lockPeriod false).1 =
      ((d.undelegations.filter
        (releasable curEpoch lastEpochInCommittee lockPeriod false)).map
          Undelegation.amount).sum := by
  have hrel : releasable curEpoch lastEpochInCommittee lockPeriod false u = true := by
    simp only [releasable, Bool.not_false, Bool.true_and, Bool.or_eq_true,
      Bool.and_eq_true, decide_eq_true_eq]
    exact Or.inr (Or.inr ⟨⟨h1, h2⟩, h3⟩)
  refine ⟨hrel, ?_, rfl⟩
  intro hmem
  rw [RemoveUnlockedUndelegations] at hmem
  simp only [List.mem_filter, hrel] at hmem
  exact absurd hmem.2 (by simp)

/-- C7 amended witness: the epoch-21 entry at `(24, 17, 7, false)` of the
passing committee test. -/
theorem c7_amended_witness :
    releasable 24 17 7 false ⟨4000, 21⟩ = true ∧
    ⟨4000, 21⟩ ∉ (RemoveUnlockedUndelegations ⟨sampleFrom, 90000, 0,
      [⟨1000, 10⟩, ⟨3000, 15⟩, ⟨4000, 21⟩]⟩ 24 17 7 false).2.undelegations ∧
    (RemoveUnlockedUndelegations ⟨sampleFrom, 90000, 0,
      [⟨1000, 10⟩, ⟨3000, 15⟩, ⟨4000, 21⟩]⟩ 24 17 7 false).1 =
      (((⟨sampleFrom, 90000, 0, [⟨1000, 10⟩, ⟨3000, 15⟩, ⟨4000, 21⟩]⟩ :
        Delegation).undelegations.filter (releasable 24 17 7 false)).map
          Undelegation.amount).sum :=
  c7_amended ⟨sampleFrom, 90000, 0, [⟨1000, 10⟩, ⟨3000, 15⟩, ⟨4000, 21⟩]⟩
    24 17 7 ⟨4000, 21⟩ (by decide) (by decide) (by decide) (by decide)

/-! ## Claim C8: the minimum-remaining rule of Undelegate -/

/-- C8: with `0 < principal − amount < minimum` the call fails with
exactly the section 6 message over the decimal renderings of the minimum
and the would-be remainder; a remainder of exactly zero or at least the
minimum succeeds, reducing the principal and appending the entry. -/
theorem c8_min_remaining (d : Delegation) (epoch : Int) (amount minimum : Nat)
    (hpos : 0 < amount) :
    (0 < d.amount - amount ∧ d.amount - amount < minimum →
      Undelegate d epoch amount (some minimum) =
        .error (minRemainingErr minimum (d.amount - amount))) ∧
    (amount ≤ d.amount → (d.amount - amount = 0 ∨ minimum ≤ d.amount - amount) →
      Undelegate d epoch amount (some minimum) =
        .ok { d with amount := d.amount - amount,
                     undelegations := d.undelegations ++ [⟨amount, epoch⟩] }) := by
  constructor
  · rintro ⟨hrem, hlt⟩
    have h1 : ¬(amount = 0) := by omega
    have h2 : ¬(d.amount < amount) := by omega
    have hne : d.amount - amount ≠ 0 := by omega
    simp [Undelegate, h1, h2, hlt, hne]
  · rintro hle hdisj
    have h1 : ¬(amount = 0) := by omega
    have h2 : ¬(d.amount < amount) := by omega
    have h3 : ¬(d.amount - amount < minimum ∧ d.amount - amount ≠ 0) := by omega
    simp [Undelegate, h1, h2, h3]

/-- C8 witness: the exact numbers of `TestMinRemainingDelegation`,
including the literal error string. -/
theorem c8_min_remaining_witness :
    Undelegate (NewDelegation sampleFrom 100000) 10 50001 (some 50000) =
      .error "Minimum: 50000, Remaining: 49999: remaining delegation must be 0 or >= 100 ONE" ∧
    Undelegate (NewDelegation sampleFrom 100000) 11 50000 (some 50000) =
      .ok ⟨sampleFrom, 50000, 0, [⟨50000, 11⟩]⟩ :=
  ⟨(c8_min_remaining (NewDelegation sampleFrom 100000) 10 50001 50000
      (by decide)).1 (by decide),
   (c8_min_remaining (NewDelegation sampleFrom 100000) 11 50000 50000
      (by decide)).2 (by decide) (by decide)⟩

/-! ## Claim C4: retrySend overrides gas fields only and writes nothing -/

/-- C4: if a message is stored at `addr` (loading succeeds and yields
`om`), the retrySend path with overrides `(gl, gp)` returns the 20-byte
`addr`, emits exactly one receipt equal to the stored one except
`gasPrice = gp` and `gasLimit = gl`, and leaves the state database
untouched (the outcome carries `db` itself — no write is applied). -/
theorem c4_retry_send (shardID : Nat) (getN : Bytes → Nat) (caller : Bytes)
    (value : Nat) (m : RouterMessageRetrySend) (db : DB) (om : OutgoingMessage)
    (h : LoadMessage m.msgAddr db = .ok om) :
    om.msgAddress = m.msgAddr ∧
    RunWriteCapable shardID getN caller value (.retrySend m) db =
      .ok ⟨m.msgAddr,
        [{ om.cxReceipt with gasPrice := m.gasPrice, gasLimit := m.gasLimit }],
        db⟩ := by
  have haddr : om.msgAddress = m.msgAddr := by
    simp only [LoadMessage] at h
    split at h
    · cases h
    · split at h
      · cases h
      · cases h
        rfl
  refine ⟨haddr, ?_⟩
  simp only [RunWriteCapable, h, haddr]

/-- C4 witness: retry the concretely stored sample message with override
gas parameters `(gasLimit, gasPrice) = (999, 77)`. -/
theorem c4_retry_send_witness :
    RunWriteCapable 1 (fun _ => 9) sampleTo 55
        (.retrySend ⟨sampleOM.msgAddress, 999, 77⟩) sampleDB =
      .ok ⟨sampleOM.msgAddress,
        [{ sampleReceipt with gasPrice := 77, gasLimit := 999 }], sampleDB⟩ :=
  (c4_retry_send 1 (fun _ => 9) sampleTo 55 ⟨sampleOM.msgAddress, 999, 77⟩
    sampleDB sampleOM sample_roundtrip).2

/-! ## Claim C6: the LoadMessage integrity check -/

/-- C6: loading at `addr` succeeds exactly when the address recomputed
from the loaded fields equals `addr` and the recomputed payload hash
equals the stored slot-6 value; the success value is the loaded message;
an address mismatch reports the computed and expected addresses as hex
strings, and a hash mismatch (with matching address) reports the
computed and expected hashes as hex strings. -/
theorem c6_load_verification (msgAddr : Bytes) (db : DB) :
    ((LoadMessage msgAddr db).isOk = true ↔
      ((CalculateAddressAndPayloadHash (loadedReceipt msgAddr db)).1 = msgAddr ∧
        (CalculateAddressAndPayloadHash (loadedReceipt msgAddr db)).2 =
          storedPayloadHash msgAddr db)) ∧
    ((CalculateAddressAndPayloadHash (loadedReceipt msgAddr db)).1 = msgAddr →
      (CalculateAddressAndPayloadHash (loadedReceipt msgAddr db)).2 =
        storedPayloadHash msgAddr db →
      LoadMessage msgAddr db =
        .ok ⟨loadedReceipt msgAddr db, msgAddr, storedPayloadHash msgAddr db⟩) ∧
    ((CalculateAddressAndPayloadHash (loadedReceipt msgAddr db)).1 ≠ msgAddr →
      LoadMessage msgAddr db = .error ("unexpected address " ++
        addressHex (CalculateAddressAndPayloadHash (loadedReceipt msgAddr db)).1 ++
        " (should be " ++ addressHex msgAddr ++ ")")) ∧
    ((CalculateAddressAndPayloadHash (loadedReceipt msgAddr db)).1 = msgAddr →
      (CalculateAddressAndPayloadHash (loadedReceipt msgAddr db)).2 ≠
        storedPayloadHash msgAddr db →
      LoadMessage msgAddr db = .error ("unexpected hash " ++
        hashHex (CalculateAddressAndPayloadHash (loadedReceipt msgAddr db)).2 ++
        " (should be " ++ hashHex (storedPayloadHash msgAddr db) ++ ")")) := by
  refine ⟨?_, ?_, ?_, ?_⟩
  · by_cases h1 : (CalculateAddressAndPayloadHash (loadedReceipt msgAddr db)).1 = msgAddr <;>
      by_cases h2 : (CalculateAddressAndPayloadHash (loadedReceipt msgAddr db)).2 =
        storedPayloadHash msgAddr db <;>
      simp [LoadMessage, h1, h2, Except.isOk, Except.toBool]
  · intro h1 h2
    simp [LoadMessage, h1, h2]
  · intro h1
    simp [LoadMessage, h1]
  · intro h1 h2
    simp [LoadMessage, h1, h2]

/-- C6 witness: loading the all-zero address from the empty database
fails the address check and reports both hex strings. -/
theorem c6_load_verification_witness :
    LoadMessage (List.replicate 20 0) emptyDB = .error ("unexpected address " ++
      addressHex (CalculateAddressAndPayloadHash
        (loadedReceipt (List.replicate 20 0) emptyDB)).1 ++
      " (should be " ++ addressHex (List.replicate 20 0) ++ ")") :=
  (c6_load_verification (List.replicate 20 0) emptyDB).2.2.1 (by decide)

/-! ## Claim C9: the write footprint of StoreMessage -/

/-- C9: every write of `StoreMessage` is under the reserved router
address; the written keys are exactly the seven header slots followed by
one slot per started 32-byte payload word (so none for an empty
payload); and every slot of every account outside that write set reads
unchanged. -/
theorem c9_store_frame (om : OutgoingMessage) (db : DB) :
    (∀ w ∈ StoreMessageWrites om, w.account = RouterAddress) ∧
    (StoreMessageWrites om).map Write.key =
      ((List.range 7).map (wordAddr om.msgAddress)) ++
      ((List.range (numWords om.cxReceipt.payload.length)).map
        (payloadSlotKey (fromBytes om.payloadHash))) ∧
    (StoreMessageWrites om).length = 7 + numWords om.cxReceipt.payload.length ∧
    (om.cxReceipt.payload = [] → (StoreMessageWrites om).length = 7) ∧
    (∀ a k, (∀ w ∈ StoreMessageWrites om, ¬(a = w.account ∧ k = w.key)) →
      StoreMessage om db a k = db a k) := by
  refine ⟨?_, ?_, ?_, ?_, ?_⟩
  · intro w hw
    rcases List.mem_append.mp hw with h7 | hp
    · fin_cases h7 <;> rfl
    · rcases List.mem_map.mp hp with ⟨i, hi, rfl⟩
      rfl
  · simp only [StoreMessageWrites, storePayloadWrites, List.map_append,
      List.map_map]
    rfl
  · simp [StoreMessageWrites, storePayloadWrites]
    omega
  · intro hnil
    simp [StoreMessageWrites, storePayloadWrites, hnil, numWords]
  · intro a k h
    exact applyWrites_untouched _ db a k h

/-- C9 witness: a foreign account slot reads unchanged through a
concrete store. -/
theorem c9_store_frame_witness :
    StoreMessage sampleOM emptyDB [1] [2] = emptyDB [1] [2] :=
  (c9_store_frame sampleOM emptyDB).2.2.2.2 [1] [2] (by decide)

/-! ## Claim C2: the store/load round trip -/

/-- The sample receipt with a non-zero source shard. -/
def shardReceipt : CXReceipt := { sampleReceipt with shardID := 1 }

/-- Its outgoing message and the database holding it. -/
def shardOM : OutgoingMessage := NewOutgoingMessage shardReceipt

def shardDB : DB := StoreMessage shardOM emptyDB

/-- C2 fails on the code: none of the seven header slots stores
`shardId`, so after `StoreMessage` of a receipt with `shardId = 1` the
raw reload reconstructs the same receipt with `shardId = 0`; the
recomputed message address therefore differs from the stored one and
`LoadMessage` at the derived address rejects its own stored message
instead of returning it. -/
theorem c2_roundtrip_drops_shard :
    shardReceipt.shardID = 1 ∧
    loadedReceipt shardOM.msgAddress shardDB = { shardReceipt with shardID := 0 } ∧
    (LoadMessage shardOM.msgAddress shardDB).isOk = false := by decide

end Harmony
